import Mathlib

/-!
Verification of the IP Address API Service (`src/main.py`).

The development embeds, as executable Lean functions:
* `validate_ip` — the service's IP validator, which wraps Python's
  `ipaddress.ip_address`; the textual-parsing algorithms of
  `ipaddress.IPv4Address` / `ipaddress.IPv6Address` (CPython standard
  library) are reproduced faithfully (octet parsing with the strict
  leading-zero rule, hextet parsing, `::` compression, trailing
  IPv4-in-IPv6 suffix, scope ids, the `/` rejection);
* `get_real_client_ip` — the client-IP resolver: X-Forwarded-For scan,
  X-Real-IP fallback, remote-address fallback, sentinel `"unknown"`;
* `get_client_ip` — the `/ip` endpoint's response construction
  (parameterised by the `is_global` attribute of parsed addresses,
  which the handler reads off the parsed object).

Headers are modelled as optional strings (a header is either absent or
carries a value); the trusted-proxy set as a list of strings with
membership by string equality, matching Python's `in` on a set of `str`.
-/

/-- Python ASCII whitespace as stripped by `str.strip()`
(space, tab, newline, carriage return, vertical tab, form feed). -/
def isPySpace (c : Char) : Bool :=
  c == ' ' || c == '\t' || c == '\n' || c == '\r' || c == '\x0b' || c == '\x0c'

/-- Python `str.strip()`: remove leading and trailing whitespace. -/
def pyStrip (s : String) : String :=
  String.mk (((s.toList.dropWhile isPySpace).reverse.dropWhile isPySpace).reverse)

/-- Split a character list on a separator character, keeping empty pieces,
as Python's `str.split(sep)` does for a one-character separator. -/
def splitCharAux (c : Char) : List Char → List Char → List (List Char)
  | [], acc => [acc.reverse]
  | x :: xs, acc =>
    if x == c then acc.reverse :: splitCharAux c xs []
    else splitCharAux c xs (x :: acc)

/-- Python `s.split(c)` for a one-character separator `c`. -/
def pySplit (s : String) (c : Char) : List String :=
  (splitCharAux c s.toList []).map String.mk

/-- Python `a or b` for an optional string `a`: `b` when `a` is `None` or
empty (falsy), otherwise `a`. -/
def pyOr (a : Option String) (b : String) : String :=
  match a with
  | none => b
  | some s => if s = "" then b else s

/-- One decimal octet of a dotted quad, as parsed by CPython
`ipaddress.IPv4Address._parse_octet`: non-empty, ASCII digits only,
at most 3 characters, no leading zero, value at most 255. -/
def parseOctet (s : String) : Option Nat :=
  if s = "" then none
  else if ¬ (s.toList.all Char.isDigit) then none
  else if s.toList.length > 3 then none
  else if s ≠ "0" ∧ s.toList.head? = some '0' then none
  else
    let n := s.toList.foldl (fun a c => a * 10 + (c.toNat - '0'.toNat)) 0
    if n > 255 then none else some n

/-- CPython `ipaddress.IPv4Address._ip_int_from_string`: exactly four
octets separated by dots. -/
def ipv4IntFromString (s : String) : Option Nat :=
  let octets := pySplit s '.'
  if octets.length ≠ 4 then none
  else match octets.mapM parseOctet with
    | some vs => some (vs.foldl (fun a v => a * 256 + v) 0)
    | none => none

/-- CPython `ipaddress.IPv4Address.__init__` on a string: reject `/`,
then parse the dotted quad. -/
def parseIPv4 (s : String) : Option Nat :=
  if s.toList.contains '/' then none else ipv4IntFromString s

/-- Hexadecimal digits accepted in an IPv6 hextet. -/
def isHexDigitPy (c : Char) : Bool :=
  c.isDigit || ('a' ≤ c && c ≤ 'f') || ('A' ≤ c && c ≤ 'F')

/-- Value of one hexadecimal digit. -/
def hexDigitVal (c : Char) : Nat :=
  if c.isDigit then c.toNat - '0'.toNat
  else if 'a' ≤ c && c ≤ 'f' then c.toNat - 'a'.toNat + 10
  else c.toNat - 'A'.toNat + 10

/-- CPython `ipaddress.IPv6Address._parse_hextet`: hex digits only,
at most 4 characters, non-empty (the empty string fails `int('', 16)`). -/
def parseHextet (s : String) : Option Nat :=
  if ¬ (s.toList.all isHexDigitPy) then none
  else if s.toList.length > 4 then none
  else if s = "" then none
  else some (s.toList.foldl (fun a c => a * 16 + hexDigitVal c) 0)

/-- Lower-case hexadecimal rendering of a natural number, as Python's
`'%x' % n` (used when an IPv4 suffix is rewritten into two hextets). -/
def natToHexStr (n : Nat) : String :=
  String.mk (Nat.toDigits 16 n)

/-- Indices `i` with `0 < i < length - 1` at which `parts` holds an empty
string: the interior positions of a `::` gap, as scanned by
`ipaddress.IPv6Address._ip_int_from_string`. -/
def innerEmptyIndices (parts : List String) : List Nat :=
  (List.range parts.length).filter
    (fun i => decide (0 < i) && decide (i + 1 < parts.length) && (parts.getD i "x" == ""))

/-- Big-endian accumulation of 16-bit groups. -/
def foldHextets (init : Nat) (vs : List Nat) : Nat :=
  vs.foldl (fun a v => a * 65536 + v) init

/-- CPython `ipaddress.IPv6Address._ip_int_from_string`: split on `:`,
rewrite a dotted-quad final part into two hextets, locate the single
`::` gap, check the endpoint rules, and assemble the 128-bit value. -/
def ipv6IntFromString (s : String) : Option Nat :=
  if s = "" then none
  else
    let parts0 := pySplit s ':'
    if parts0.length < 3 then none
    else
      let withV4 : Option (List String) :=
        match parts0.getLast? with
        | some last =>
          if last.toList.contains '.' then
            match parseIPv4 last with
            | some v4 =>
              some (parts0.dropLast ++ [natToHexStr (v4 / 65536), natToHexStr (v4 % 65536)])
            | none => none
          else some parts0
        | none => none
      match withV4 with
      | none => none
      | some parts =>
        if parts.length > 9 then none
        else
          match innerEmptyIndices parts with
          | [] =>
            if parts.length ≠ 8 then none
            else if parts.head? = some "" then none
            else if parts.getLast? = some "" then none
            else (parts.mapM parseHextet).map (foldHextets 0)
          | [i] =>
            let n := parts.length
            let headEmpty := parts.head? = some ""
            let lastEmpty := parts.getLast? = some ""
            let partsHi := if headEmpty then i - 1 else i
            let partsLo := if lastEmpty then n - i - 1 - 1 else n - i - 1
            if headEmpty ∧ partsHi ≠ 0 then none
            else if lastEmpty ∧ partsLo ≠ 0 then none
            else if 8 ≤ partsHi + partsLo then none
            else
              let skipped := 8 - (partsHi + partsLo)
              match (parts.take partsHi).mapM parseHextet,
                    (parts.drop (n - partsLo)).mapM parseHextet with
              | some his, some los =>
                some (foldHextets ((foldHextets 0 his) * 65536 ^ skipped) los)
              | _, _ => none
          | _ => none

/-- CPython `ipaddress.IPv6Address._split_scope_id`: at most one `%`,
and a non-empty scope id after it. -/
def splitScopeId (s : String) : Option (String × Option String) :=
  match pySplit s '%' with
  | [a] => some (a, none)
  | [a, sc] => if sc = "" then none else some (a, some sc)
  | _ => none

/-- CPython `ipaddress.IPv6Address.__init__` on a string: reject `/`,
split off the scope id, parse the 128-bit value. -/
def parseIPv6 (s : String) : Option (Nat × Option String) :=
  if s.toList.contains '/' then none
  else match splitScopeId s with
    | some (addr, sc) =>
      match ipv6IntFromString addr with
      | some n => some (n, sc)
      | none => none
    | none => none

/-- A parsed IP address: `IPv4Address` or `IPv6Address` (the latter with
its optional scope id), as produced by `ipaddress.ip_address`. -/
inductive IPAddr where
  | v4 (addr : Nat)
  | v6 (addr : Nat) (scopeId : Option String)
deriving DecidableEq, Repr

/-- CPython `ipaddress.ip_address` on a string: try IPv4 first, then
IPv6; `none` models the `ValueError` raised when neither parses. -/
def ip_address (s : String) : Option IPAddr :=
  match parseIPv4 s with
  | some n => some (.v4 n)
  | none =>
    match parseIPv6 s with
    | some (n, sc) => some (.v6 n sc)
    | none => none

/-- `validate_ip` from `src/main.py`: strip, parse, and turn the
`ValueError` of an unparseable string into `None`. -/
def validate_ip (s : String) : Option IPAddr :=
  ip_address (pyStrip s)

/-- The request headers read by the resolver: `X-Forwarded-For` and
`X-Real-IP`, each either absent or carrying a string value. -/
structure Headers where
  xff : Option String
  xri : Option String
deriving DecidableEq, Repr

/-- `ProductionConfig.TRUSTED_PROXIES` from `src/main.py`. -/
def TRUSTED_PROXIES : List String := ["127.0.0.1", "::1"]

/-- The forwarding chain: the `X-Forwarded-For` value split on `,` with
each element stripped (`[ip.strip() for ip in xff.split(',')]`). -/
def forwardingChain (xff : String) : List String :=
  (pySplit xff ',').map pyStrip

/-- The loop test of the X-Forwarded-For scan:
`validate_ip(ip) and ip not in trusted_proxies`. -/
def validProxyCandidate (trusted_proxies : List String) (ip : String) : Bool :=
  (validate_ip ip).isSome && !(trusted_proxies.contains ip)

/-- `get_real_client_ip` from `src/main.py`, as a function of the two
headers it reads, `request.remote_addr`, and the configured trusted-proxy
set. The `for … break` over `reversed(proxies)` is `List.find?` on the
reversed chain; each successive rebinding of `client_ip` is a `let`. -/
def get_real_client_ip (headers : Headers) (remote_addr : Option String)
    (trusted_proxies : List String) : String :=
  let client_ip := "unknown"
  let client_ip :=
    match headers.xff with
    | some xff =>
      match (forwardingChain xff).reverse.find? (validProxyCandidate trusted_proxies) with
      | some ip => ip
      | none => client_ip
    | none => client_ip
  let client_ip :=
    if client_ip = "unknown" then
      match headers.xri with
      | some xri => if (validate_ip xri).isSome then xri else client_ip
      | none => client_ip
    else client_ip
  if client_ip = "unknown" then pyOr remote_addr "unknown" else client_ip

/-- The `network` object of the `/ip` response body. -/
structure NetworkInfo where
  is_global : Bool
  version : String
deriving DecidableEq, Repr

/-- The `/ip` response body built by `get_client_ip` in `src/main.py`. -/
structure IpResponse where
  ip : String
  network : NetworkInfo
  forwarded_for : Option String
  real_ip : Option String
  remote_addr : Option String
deriving DecidableEq, Repr

/-- `get_client_ip` from `src/main.py` (the `GET /ip` handler).
`isGlobal` stands for the `is_global` attribute of a parsed address
object, which the handler reads when validation succeeds. -/
def get_client_ip (isGlobal : IPAddr → Bool) (headers : Headers)
    (remote_addr : Option String) (trusted_proxies : List String) : IpResponse :=
  let client_ip := get_real_client_ip headers remote_addr trusted_proxies
  { ip := client_ip
    network :=
      { is_global :=
          match validate_ip client_ip with
          | some a => isGlobal a
          | none => false
        version :=
          match validate_ip client_ip with
          | some (.v4 _) => "v4"
          | some (.v6 _ _) => "v6"
          | none => "invalid" }
    forwarded_for := headers.xff
    real_ip := headers.xri
    remote_addr := remote_addr }

example : validate_ip "127.0.0.1" = some (.v4 0x7f000001) := by decide
example : validate_ip "::1" = some (.v6 1 none) := by decide
example : validate_ip "0:0:0:0:0:0:0:1" = some (.v6 1 none) := by decide
example : validate_ip "" = none := by decide
example : validate_ip "unknown" = none := by decide
example : validate_ip "256.1.1.1" = none := by decide
example : validate_ip "  192.168.0.1 " = some (.v4 0xc0a80001) := by decide
example : validate_ip "2001:db8::1" = some (.v6 0x20010db8000000000000000000000001 none) := by decide
example : validate_ip "::ffff:1.2.3.4" = some (.v6 0xffff01020304 none) := by decide
example : validate_ip "fe80::1%eth0" = some (.v6 0xfe800000000000000000000000000001 (some "eth0")) := by decide
example : validate_ip "01.2.3.4" = none := by decide
example : validate_ip "1.2.3" = none := by decide
example : validate_ip "1:2" = none := by decide
example : validate_ip ":::" = none := by decide
example : validate_ip "::1%" = none := by decide
example : validate_ip "1::2::3" = none := by decide
example : validate_ip ":1:2:3:4:5:6:7" = none := by decide
example : validate_ip "1:2:3:4:5:6:7:" = none := by decide
example : validate_ip "1:2:3:4:5:6:7:8:9" = none := by decide
example : validate_ip "example.com" = none := by decide
example :
    get_real_client_ip ⟨some "10.0.0.1, 203.0.113.5, 127.0.0.1", none⟩ none TRUSTED_PROXIES
      = "203.0.113.5" := by decide
example : get_real_client_ip ⟨none, none⟩ (some "198.51.100.7") TRUSTED_PROXIES
      = "198.51.100.7" := by decide
example : get_real_client_ip ⟨none, some "not-an-ip"⟩ none TRUSTED_PROXIES = "unknown" := by
  decide
example : get_real_client_ip ⟨none, some "127.0.0.1"⟩ none TRUSTED_PROXIES = "127.0.0.1" := by
  decide
example : get_real_client_ip ⟨none, some " 1.2.3.4 "⟩ none TRUSTED_PROXIES = " 1.2.3.4 " := by
  decide
example : get_real_client_ip ⟨some " 5.6.7.8 ", none⟩ none [] = "5.6.7.8" := by decide
example :
    get_real_client_ip ⟨some "0:0:0:0:0:0:0:1", none⟩ none TRUSTED_PROXIES
      = "0:0:0:0:0:0:0:1" := by decide
example :
    (get_client_ip (fun _ => false) ⟨none, none⟩ none TRUSTED_PROXIES).network.version
      = "invalid" := by decide

/-! Helper lemmas about the resolver. -/

theorem validate_ip_unknown : validate_ip "unknown" = none := by decide

theorem ne_unknown_of_valid {s : String} (h : (validate_ip s).isSome = true) :
    s ≠ "unknown" := by
  intro hs
  rw [hs, validate_ip_unknown] at h
  simp at h

theorem resolver_xff_found (v r : String) (xri peer : Option String) (tp : List String)
    (hfind : (forwardingChain v).reverse.find? (validProxyCandidate tp) = some r) :
    get_real_client_ip ⟨some v, xri⟩ peer tp = r := by
  have hp : validProxyCandidate tp r = true := List.find?_some hfind
  have hvalid : (validate_ip r).isSome = true := by
    simp only [validProxyCandidate, Bool.and_eq_true] at hp
    exact hp.1
  have hne : r ≠ "unknown" := ne_unknown_of_valid hvalid
  unfold get_real_client_ip
  simp [hfind, hne]

theorem resolver_xff_none (v : String) (xri peer : Option String) (tp : List String)
    (hfind : (forwardingChain v).reverse.find? (validProxyCandidate tp) = none) :
    get_real_client_ip ⟨some v, xri⟩ peer tp = get_real_client_ip ⟨none, xri⟩ peer tp := by
  unfold get_real_client_ip
  simp [hfind]

theorem resolver_xri_valid (s : String) (peer : Option String) (tp : List String)
    (h : (validate_ip s).isSome = true) :
    get_real_client_ip ⟨none, some s⟩ peer tp = s := by
  have hne : s ≠ "unknown" := ne_unknown_of_valid h
  unfold get_real_client_ip
  simp [h, hne]

theorem resolver_xri_invalid (s : String) (peer : Option String) (tp : List String)
    (h : (validate_ip s).isSome = false) :
    get_real_client_ip ⟨none, some s⟩ peer tp = pyOr peer "unknown" := by
  unfold get_real_client_ip
  simp [h]

theorem resolver_no_headers (peer : Option String) (tp : List String) :
    get_real_client_ip ⟨none, none⟩ peer tp = pyOr peer "unknown" := by
  unfold get_real_client_ip
  simp

theorem pyOr_unknown_iff (peer : Option String) :
    pyOr peer "unknown" = "unknown" ↔
      (peer = none ∨ peer = some "" ∨ peer = some "unknown") := by
  cases peer with
  | none => simp [pyOr]
  | some s =>
    by_cases hs : s = ""
    · subst hs; simp [pyOr]
    · simp [pyOr, hs]

theorem chain_all_fail_of_find?_none {v : String} {tp : List String}
    (h : (forwardingChain v).reverse.find? (validProxyCandidate tp) = none) :
    ∀ c ∈ forwardingChain v, validProxyCandidate tp c = false := by
  intro c hc
  simpa using List.find?_eq_none.mp h c (List.mem_reverse.mpr hc)

theorem find?_none_of_chain_all_fail {v : String} {tp : List String}
    (h : ∀ c ∈ forwardingChain v, validProxyCandidate tp c = false) :
    (forwardingChain v).reverse.find? (validProxyCandidate tp) = none :=
  List.find?_eq_none.mpr (fun c hc => by simp [h c (List.mem_reverse.mp hc)])

theorem resolver_noxff_unknown_iff (xri peer : Option String) (tp : List String) :
    get_real_client_ip ⟨none, xri⟩ peer tp = "unknown" ↔
      ((∀ s, xri = some s → (validate_ip s).isSome = false) ∧
       (peer = none ∨ peer = some "" ∨ peer = some "unknown")) := by
  cases xri with
  | none =>
    rw [resolver_no_headers, pyOr_unknown_iff]
    simp
  | some s =>
    cases hv : validate_ip s with
    | none =>
      rw [resolver_xri_invalid s peer tp (by simp [hv]), pyOr_unknown_iff]
      simp [hv]
    | some a =>
      rw [resolver_xri_valid s peer tp (by simp [hv])]
      simp [ne_unknown_of_valid (show (validate_ip s).isSome = true by simp [hv]), hv]

theorem pyOr_some_of_ne {s : String} (b : String) (h : s ≠ "") : pyOr (some s) b = s := by
  simp [pyOr, h]

theorem resolver_noxff_provenance (xr peer : Option String) (tp : List String) :
    (xr = some (get_real_client_ip ⟨none, xr⟩ peer tp) ∧
        (validate_ip (get_real_client_ip ⟨none, xr⟩ peer tp)).isSome = true) ∨
    peer = some (get_real_client_ip ⟨none, xr⟩ peer tp) ∨
    get_real_client_ip ⟨none, xr⟩ peer tp = "unknown" := by
  have peerCase : ∀ h : get_real_client_ip ⟨none, xr⟩ peer tp = pyOr peer "unknown",
      peer = some (get_real_client_ip ⟨none, xr⟩ peer tp) ∨
      get_real_client_ip ⟨none, xr⟩ peer tp = "unknown" := by
    intro h
    rw [h]
    cases peer with
    | none => exact Or.inr rfl
    | some s =>
      by_cases hs : s = ""
      · subst hs; exact Or.inr rfl
      · rw [pyOr_some_of_ne _ hs]; exact Or.inl rfl
  cases xr with
  | none => exact Or.inr (peerCase (resolver_no_headers peer tp))
  | some s =>
    cases hv : validate_ip s with
    | none => exact Or.inr (peerCase (resolver_xri_invalid s peer tp (by simp [hv])))
    | some a =>
      left
      rw [resolver_xri_valid s peer tp (by simp [hv])]
      exact ⟨rfl, by simp [hv]⟩

/-- C2 counterexample: with no X-Forwarded-For header, an X-Real-IP header
holding the trusted proxy address 127.0.0.1, and no peer address, the
resolver returns "127.0.0.1", which is a member of the production
trusted-proxy set — so the resolved IP can be a trusted-proxy address. -/
theorem resolver_returns_trusted_real_ip :
    get_real_client_ip ⟨none, some "127.0.0.1"⟩ none TRUSTED_PROXIES = "127.0.0.1" ∧
    "127.0.0.1" ∈ TRUSTED_PROXIES := by decide

/-- C2 (amended): the resolver's result is a valid, non-trusted entry of
the forwarding chain, or the X-Real-IP header value (if valid), or the
peer address, or the literal "unknown"; only the forwarding-chain source
is guaranteed not to be a trusted proxy — the X-Real-IP and peer
fallbacks are not filtered against the trusted-proxy set. -/
theorem resolver_result_provenance (hdrs : Headers) (peer : Option String)
    (tp : List String) :
    (∃ v, hdrs.xff = some v ∧ get_real_client_ip hdrs peer tp ∈ forwardingChain v ∧
        validProxyCandidate tp (get_real_client_ip hdrs peer tp) = true) ∨
    (hdrs.xri = some (get_real_client_ip hdrs peer tp) ∧
        (validate_ip (get_real_client_ip hdrs peer tp)).isSome = true) ∨
    peer = some (get_real_client_ip hdrs peer tp) ∨
    get_real_client_ip hdrs peer tp = "unknown" := by
  obtain ⟨xf, xr⟩ := hdrs
  dsimp only
  cases xf with
  | none => exact Or.inr (resolver_noxff_provenance xr peer tp)
  | some v =>
    cases hfind : (forwardingChain v).reverse.find? (validProxyCandidate tp) with
    | some r =>
      left
      rw [resolver_xff_found v r xr peer tp hfind]
      exact ⟨v, rfl, List.mem_reverse.mp (List.mem_of_find?_eq_some hfind),
        List.find?_some hfind⟩
    | none =>
      rw [resolver_xff_none v xr peer tp hfind]
      exact Or.inr (resolver_noxff_provenance xr peer tp)

/-- C3 counterexample: an X-Real-IP header is present (with the unusable
value "not-an-ip") and yet the resolver returns "unknown" — so "unknown"
can be returned while a real-IP header is available. -/
theorem unknown_with_real_ip_header_present :
    get_real_client_ip ⟨none, some "not-an-ip"⟩ none TRUSTED_PROXIES = "unknown" ∧
    (Headers.mk none (some "not-an-ip")).xri ≠ none := by decide

/-- C3 (amended): the resolver returns "unknown" exactly when the
X-Forwarded-For step yields no candidate (header absent, or every trimmed
entry invalid or trusted), the X-Real-IP header is absent or does not
validate, and the peer address is absent, empty, or itself the literal
"unknown". -/
theorem unknown_iff_no_usable_signal (hdrs : Headers) (peer : Option String)
    (tp : List String) :
    get_real_client_ip hdrs peer tp = "unknown" ↔
      ((∀ v, hdrs.xff = some v → ∀ c ∈ forwardingChain v, validProxyCandidate tp c = false) ∧
       (∀ s, hdrs.xri = some s → (validate_ip s).isSome = false) ∧
       (peer = none ∨ peer = some "" ∨ peer = some "unknown")) := by
  obtain ⟨xf, xr⟩ := hdrs
  dsimp only
  cases xf with
  | none =>
    rw [resolver_noxff_unknown_iff]
    simp
  | some v =>
    cases hfind : (forwardingChain v).reverse.find? (validProxyCandidate tp) with
    | some r =>
      rw [resolver_xff_found v r xr peer tp hfind]
      have hp := List.find?_some hfind
      have hvalid : (validate_ip r).isSome = true := by
        simp only [validProxyCandidate, Bool.and_eq_true] at hp
        exact hp.1
      have hmem : r ∈ forwardingChain v :=
        List.mem_reverse.mp (List.mem_of_find?_eq_some hfind)
      constructor
      · intro h
        exact absurd h (ne_unknown_of_valid hvalid)
      · rintro ⟨h1, -, -⟩
        have hfail := h1 v rfl r hmem
        have hp' := List.find?_some hfind
        rw [hfail] at hp'
        cases hp'
    | none =>
      rw [resolver_xff_none v xr peer tp hfind, resolver_noxff_unknown_iff]
      constructor
      · rintro ⟨h2, h3⟩
        refine ⟨fun v' hv' => ?_, h2, h3⟩
        cases hv'
        exact chain_all_fail_of_find?_none hfind
      · rintro ⟨-, h2, h3⟩
        exact ⟨h2, h3⟩

theorem unknown_iff_no_usable_signal_witness :
    get_real_client_ip ⟨none, none⟩ none [] = "unknown" :=
  (unknown_iff_no_usable_signal ⟨none, none⟩ none []).mpr
    ⟨by simp, by simp, Or.inl rfl⟩

/-- C4: the validator strips surrounding whitespace and feeds the result to
the address parser, always returning either a parsed address or the
invalid sentinel (`none`, never an exception); it rejects the empty
string, hostnames, and dotted quads with octets above 255, and accepts
whitespace-wrapped IPv4 and IPv6 literals. -/
theorem validate_ip_spec :
    (∀ s, validate_ip s = ip_address (pyStrip s)) ∧
    (∀ s, validate_ip s = none ∨ ∃ a, validate_ip s = some a) ∧
    validate_ip "" = none ∧
    validate_ip "localhost" = none ∧
    validate_ip "example.com" = none ∧
    validate_ip "256.1.1.1" = none ∧
    validate_ip " 192.168.0.1 " = some (.v4 0xc0a80001) ∧
    validate_ip "\t2001:db8::1\n" = some (.v6 0x20010db8000000000000000000000001 none) := by
  refine ⟨fun s => rfl, fun s => ?_, by decide, by decide, by decide, by decide,
    by decide, by decide⟩
  cases h : validate_ip s with
  | none => exact Or.inl rfl
  | some a => exact Or.inr ⟨a, rfl⟩

/-- C1: when an X-Forwarded-For header is present, the resolver splits its
value on commas, trims each element, and scans the chain from right to
left: either some candidate validates and is untrusted — and the result
is the rightmost such candidate (every entry to its right fails the
test) — or no candidate passes both tests and the resolver behaves
exactly as it would without the header, falling through to the X-Real-IP
step. -/
theorem xff_step_correct (hdrs : Headers) (peer : Option String) (tp : List String)
    (v : String) (hxff : hdrs.xff = some v) :
    (∃ pre r post, forwardingChain v = pre ++ r :: post ∧
        validProxyCandidate tp r = true ∧
        (∀ c ∈ post, validProxyCandidate tp c = false) ∧
        get_real_client_ip hdrs peer tp = r) ∨
    ((∀ c ∈ forwardingChain v, validProxyCandidate tp c = false) ∧
        get_real_client_ip hdrs peer tp = get_real_client_ip ⟨none, hdrs.xri⟩ peer tp) := by
  obtain ⟨xf, xr⟩ := hdrs
  dsimp only at hxff ⊢
  subst hxff
  cases hfind : (forwardingChain v).reverse.find? (validProxyCandidate tp) with
  | some r =>
    left
    obtain ⟨hp, l1, l2, hrev, hfail⟩ := List.find?_eq_some.mp hfind
    have hchain : forwardingChain v = l2.reverse ++ r :: l1.reverse := by
      have h := congrArg List.reverse hrev
      simpa [List.reverse_append] using h
    refine ⟨l2.reverse, r, l1.reverse, hchain, hp, ?_,
      resolver_xff_found v r xr peer tp hfind⟩
    intro c hc
    simpa using hfail c (List.mem_reverse.mp hc)
  | none =>
    right
    exact ⟨chain_all_fail_of_find?_none hfind, resolver_xff_none v xr peer tp hfind⟩

theorem xff_step_correct_witness :
    (∃ pre r post,
        forwardingChain "10.0.0.1, 203.0.113.5, 127.0.0.1" = pre ++ r :: post ∧
        validProxyCandidate ["127.0.0.1"] r = true ∧
        (∀ c ∈ post, validProxyCandidate ["127.0.0.1"] c = false) ∧
        get_real_client_ip ⟨some "10.0.0.1, 203.0.113.5, 127.0.0.1", none⟩ none
          ["127.0.0.1"] = r) ∨
    ((∀ c ∈ forwardingChain "10.0.0.1, 203.0.113.5, 127.0.0.1",
        validProxyCandidate ["127.0.0.1"] c = false) ∧
        get_real_client_ip ⟨some "10.0.0.1, 203.0.113.5, 127.0.0.1", none⟩ none
          ["127.0.0.1"]
          = get_real_client_ip ⟨none, none⟩ none ["127.0.0.1"]) :=
  xff_step_correct ⟨some "10.0.0.1, 203.0.113.5, 127.0.0.1", none⟩ none ["127.0.0.1"]
    "10.0.0.1, 203.0.113.5, 127.0.0.1" rfl

/-- C5: whenever the rightmost trimmed entry of the X-Forwarded-For chain
is a valid IP outside the trusted-proxy set, the resolver returns exactly
that entry, whatever the earlier entries are. -/
theorem rightmost_entry_selected (hdrs : Headers) (peer : Option String)
    (tp : List String) (v c : String) (hxff : hdrs.xff = some v)
    (hlast : (forwardingChain v).getLast? = some c)
    (hvalid : (validate_ip c).isSome = true)
    (htr : tp.contains c = false) :
    get_real_client_ip hdrs peer tp = c := by
  obtain ⟨xf, xr⟩ := hdrs
  dsimp only at hxff ⊢
  subst hxff
  have hrev : (forwardingChain v).reverse.head? = some c := by
    rw [List.head?_reverse]
    exact hlast
  cases hl : (forwardingChain v).reverse with
  | nil => rw [hl] at hrev; cases hrev
  | cons x xs =>
    rw [hl] at hrev
    have hx : x = c := by simpa using hrev
    subst hx
    have hfind : (forwardingChain v).reverse.find? (validProxyCandidate tp) = some x := by
      rw [hl]
      rw [List.find?_cons_of_pos]
      have hmem : x ∉ tp := by
        intro hmem
        have hc : tp.contains x = true := List.elem_iff.mpr hmem
        rw [hc] at htr
        cases htr
      simp [validProxyCandidate, hvalid, hmem]
    exact resolver_xff_found v x xr peer tp hfind

theorem rightmost_entry_selected_witness :
    get_real_client_ip ⟨some "10.0.0.1, 203.0.113.5", none⟩ none ["127.0.0.1"]
      = "203.0.113.5" :=
  rightmost_entry_selected ⟨some "10.0.0.1, 203.0.113.5", none⟩ none ["127.0.0.1"]
    "10.0.0.1, 203.0.113.5" "203.0.113.5" rfl (by decide) (by decide) (by decide)

/-- C6 counterexample: with no headers and the peer address the literal
string "unknown" — present and non-empty — the resolver still returns
"unknown", so "unknown" is not returned only when the peer address is
absent or empty. -/
theorem unknown_peer_not_absent_nor_empty :
    get_real_client_ip ⟨none, none⟩ (some "unknown") TRUSTED_PROXIES = "unknown" ∧
    ¬((some "unknown" : Option String) = none ∨
      (some "unknown" : Option String) = some "") := by decide

/-- C6 (amended): when neither header step yields a result, the resolver
returns the peer address if present and non-empty and "unknown"
otherwise (in particular, headers absent with peer "198.51.100.7" give
"198.51.100.7"); the result is "unknown" exactly when the peer address is
absent, empty, or itself the literal "unknown". -/
theorem peer_fallback (hdrs : Headers) (peer : Option String) (tp : List String)
    (h1 : ∀ v, hdrs.xff = some v → ∀ c ∈ forwardingChain v, validProxyCandidate tp c = false)
    (h2 : ∀ s, hdrs.xri = some s → (validate_ip s).isSome = false) :
    get_real_client_ip hdrs peer tp = pyOr peer "unknown" ∧
    (get_real_client_ip hdrs peer tp = "unknown" ↔
      (peer = none ∨ peer = some "" ∨ peer = some "unknown")) := by
  obtain ⟨xf, xr⟩ := hdrs
  dsimp only at h1 h2 ⊢
  have step : get_real_client_ip ⟨xf, xr⟩ peer tp = pyOr peer "unknown" := by
    have hxff : get_real_client_ip ⟨xf, xr⟩ peer tp
        = get_real_client_ip ⟨none, xr⟩ peer tp := by
      cases xf with
      | none => rfl
      | some v =>
        exact resolver_xff_none v xr peer tp (find?_none_of_chain_all_fail (h1 v rfl))
    rw [hxff]
    cases xr with
    | none => exact resolver_no_headers peer tp
    | some s => exact resolver_xri_invalid s peer tp (h2 s rfl)
  exact ⟨step, by rw [step, pyOr_unknown_iff]⟩

theorem peer_fallback_witness :
    get_real_client_ip ⟨none, none⟩ (some "198.51.100.7") TRUSTED_PROXIES
      = "198.51.100.7" :=
  (peer_fallback ⟨none, none⟩ (some "198.51.100.7") TRUSTED_PROXIES
    (by simp) (by simp)).1.trans (by decide)

/-- C7: whenever the resolved client IP does not validate (notably the
sentinel "unknown"), the /ip response carries network.version = "invalid"
and network.is_global = false, while the ip field carries the resolved
string itself. -/
theorem ip_endpoint_invalid_version (g : IPAddr → Bool) (hdrs : Headers)
    (peer : Option String) (tp : List String)
    (h : validate_ip (get_real_client_ip hdrs peer tp) = none) :
    (get_client_ip g hdrs peer tp).network.version = "invalid" ∧
    (get_client_ip g hdrs peer tp).network.is_global = false ∧
    (get_client_ip g hdrs peer tp).ip = get_real_client_ip hdrs peer tp := by
  unfold get_client_ip
  simp [h]

theorem ip_endpoint_invalid_version_witness :
    (get_client_ip (fun _ => false) ⟨none, none⟩ none TRUSTED_PROXIES).network.version
      = "invalid" ∧
    (get_client_ip (fun _ => false) ⟨none, none⟩ none TRUSTED_PROXIES).network.is_global
      = false ∧
    (get_client_ip (fun _ => false) ⟨none, none⟩ none TRUSTED_PROXIES).ip
      = get_real_client_ip ⟨none, none⟩ none TRUSTED_PROXIES :=
  ip_endpoint_invalid_version (fun _ => false) ⟨none, none⟩ none TRUSTED_PROXIES
    (by decide)

/-- C8: the resolver is a pure function of the headers, the peer address
and the trusted-proxy set — two calls on identical inputs return
identical strings, with no hidden or mutable state in the embedding. -/
theorem resolver_deterministic (hdrs : Headers) (peer : Option String)
    (tp : List String) :
    get_real_client_ip hdrs peer tp = get_real_client_ip hdrs peer tp := rfl

/-- C9: a result selected from the X-Forwarded-For chain is returned
trimmed, but the X-Real-IP value is returned raw: " 1.2.3.4 " validates
(after stripping) yet is returned with its surrounding whitespace, while
the same value inside X-Forwarded-For comes back as "5.6.7.8"-style
trimmed text. -/
theorem xri_returned_untrimmed :
    (validate_ip " 1.2.3.4 ").isSome = true ∧
    (∀ peer tp, get_real_client_ip ⟨none, some " 1.2.3.4 "⟩ peer tp = " 1.2.3.4 ") ∧
    " 1.2.3.4 " ≠ "1.2.3.4" ∧
    get_real_client_ip ⟨some " 5.6.7.8 ", none⟩ none TRUSTED_PROXIES = "5.6.7.8" := by
  refine ⟨by decide, fun peer tp => resolver_xri_valid _ peer tp (by decide),
    by decide, by decide⟩

/-- C10: trusted-proxy membership is textual, not semantic: the chain
entry "0:0:0:0:0:0:0:1" parses to the same IPv6 address as the trusted
"::1", yet it is not a member of the trusted-proxy set and is returned as
the client IP. -/
theorem trusted_match_is_textual :
    validate_ip "0:0:0:0:0:0:0:1" = validate_ip "::1" ∧
    (validate_ip "0:0:0:0:0:0:0:1").isSome = true ∧
    "::1" ∈ TRUSTED_PROXIES ∧
    "0:0:0:0:0:0:0:1" ∉ TRUSTED_PROXIES ∧
    get_real_client_ip ⟨some "0:0:0:0:0:0:0:1", none⟩ none TRUSTED_PROXIES
      = "0:0:0:0:0:0:0:1" := by decide
